import Mathlib

/-!
Verification of the order / tax / tracking subsystem of the `newvaraha`
e-commerce backend.  Monetary values are embedded as exact rationals
(`ℚ`); Python `round(x, 2)` is embedded as round-half-to-even at two
decimal places (`round2`).  JSON-encoded list columns
(`status_history`, `tracking_data`, credential dictionaries) are
embedded as Lean lists; Python `None` / falsy-string coalescing is
embedded with `Option`.
-/

deriving instance DecidableEq for Except

namespace Varaha

/-- Rounding of a rational to the nearest integer, ties to even
(Python `round` banker rounding). -/
def roundHalfEven (x : ℚ) : ℤ :=
  if x - (⌊x⌋ : ℚ) < 1/2 then ⌊x⌋
  else if 1/2 < x - (⌊x⌋ : ℚ) then ⌊x⌋ + 1
  else if ⌊x⌋ % 2 = 0 then ⌊x⌋ else ⌊x⌋ + 1

/-- Python `round(x, 2)`: round to two decimal places, ties to even. -/
def round2 (x : ℚ) : ℚ := (roundHalfEven (100 * x) : ℚ) / 100

theorem roundHalfEven_intCast (n : ℤ) : roundHalfEven (n : ℚ) = n := by
  simp [roundHalfEven, Int.floor_intCast]

/-- Evaluation helper: when `100 * x` is the integer `n`, `round2 x`
is exactly `n / 100`. -/
theorem round2_eval (x : ℚ) (n : ℤ) (h : 100 * x = (n : ℚ)) :
    round2 x = (n : ℚ) / 100 := by
  rw [round2, h, roundHalfEven_intCast]

theorem roundHalfEven_dist (x : ℚ) : |(roundHalfEven x : ℚ) - x| ≤ 1/2 := by
  have h0 : (⌊x⌋ : ℚ) ≤ x := Int.floor_le x
  have h1 : x < (⌊x⌋ : ℚ) + 1 := Int.lt_floor_add_one x
  rw [roundHalfEven]
  split_ifs with hlt hgt hev <;> (rw [abs_le]; push_cast; constructor <;> linarith)

theorem round2_dist (x : ℚ) : |round2 x - x| ≤ 1/200 := by
  have h := roundHalfEven_dist (100 * x)
  rw [abs_le] at h ⊢
  rw [round2]
  constructor <;> [linarith [h.1]; linarith [h.2]]

/-- Boolean prefix test on lists (used for substring search). -/
def isPrefixB : List Char → List Char → Bool
  | [], _ => true
  | _ :: _, [] => false
  | a :: as, b :: bs => (a == b) && isPrefixB as bs

/-- Boolean substring test on character lists: Python `needle in hay`. -/
def containsSub (needle : List Char) : List Char → Bool
  | [] => needle.isEmpty
  | c :: rest => isPrefixB needle (c :: rest) || containsSub needle rest

/-- Python `needle in hay` on strings. -/
def strContains (needle hay : String) : Bool :=
  containsSub needle.toList hay.toList

/-- Lower-casing of an ASCII letter (Python `str.lower` on the
characters appearing in state names). -/
def lowerChar (c : Char) : Char :=
  if 65 ≤ c.toNat ∧ c.toNat ≤ 90 then Char.ofNat (c.toNat + 32) else c

/-- Whitespace test used by Python `str.strip`. -/
def isSpaceChar (c : Char) : Bool :=
  c == ' ' || c == '\t' || c == '\n' || c == '\r'

/-- Python `s.strip().lower()` as a character-list transformation. -/
def normChars (s : String) : List Char :=
  (((s.toList.dropWhile isSpaceChar).reverse.dropWhile isSpaceChar).reverse).map lowerChar

/-- Result dictionary of `calculate_tax_breakdown` (src/routes/orders.py). -/
structure TaxBreakdown where
  hsn_code : String
  taxable_value : ℚ
  cgst_amount : ℚ
  sgst_amount : ℚ
  igst_amount : ℚ
  state : String
deriving Repr, DecidableEq

/-- Test `"rajasthan" in state.strip().lower()` from
`calculate_tax_breakdown`; the empty string (covering Python `None`)
never matches. -/
def isRajasthan (state : String) : Bool :=
  containsSub "rajasthan".toList (normChars state)

/-- Embedding of `calculate_tax_breakdown` (src/routes/orders.py lines
107-140): taxable value is the gross amount divided by 1.03 rounded to
two decimals, GST is the remainder rounded to two decimals, split
CGST/SGST when the normalised state contains the home state and put on
IGST otherwise. -/
def calculate_tax_breakdown (total_amount : ℚ) (state : String) : TaxBreakdown :=
  let taxable_value := round2 (total_amount / (103/100))
  let gst_amount := round2 (total_amount - taxable_value)
  if isRajasthan state then
    { hsn_code := "7117", taxable_value := taxable_value
      cgst_amount := round2 (gst_amount / 2)
      sgst_amount := round2 (gst_amount / 2)
      igst_amount := 0, state := state }
  else
    { hsn_code := "7117", taxable_value := taxable_value
      cgst_amount := 0, sgst_amount := 0
      igst_amount := gst_amount, state := state }

/-- Spec-side restatement of the tax contract, written from the words
of the specification (section 4.1): `taxable_value = round(amount /
1.03, 2)`, `total_tax = round(amount - taxable_value, 2)`, split into
CGST/SGST halves when the trimmed lower-cased destination contains the
home state "rajasthan", whole tax on IGST otherwise. -/
def taxSpec (amount : ℚ) (destination_state : String) : TaxBreakdown :=
  let taxable := round2 (amount / (103/100))
  let tax := round2 (amount - taxable)
  let intra := containsSub "rajasthan".toList (normChars destination_state)
  { hsn_code := "7117"
    taxable_value := taxable
    cgst_amount := if intra then round2 (tax / 2) else 0
    sgst_amount := if intra then round2 (tax / 2) else 0
    igst_amount := if intra then 0 else tax
    state := destination_state }

/-- Entry of the JSON-encoded `status_history` column. -/
structure HistEntry where
  status : String
  timestamp : String
  comment : String
deriving Repr, DecidableEq

/-- Entry of the JSON-encoded `tracking_data` column (the internal
format built by the webhook from a carrier scan). -/
structure TrackEntry where
  status : String
  location : String
  timestamp : String
  status_code : String
deriving Repr, DecidableEq

/-- Item of the order item list; `quantity` is the optional
`quantity` key of the item dictionary. -/
structure OrderItem where
  quantity : Option ℤ
deriving Repr, DecidableEq

/-- Embedding of the `Order` row (src/models.py): only the columns the
order / tax / tracking operations touch.  The JSON text columns
`status_history`, `tracking_data` and `items_json` are embedded as the
lists they encode; `items_parse_ok = false` stands for an
unparseable `items_json`. -/
structure Order where
  order_id : String
  customer_name : String
  email : String
  status : String
  status_history : List HistEntry
  tracking_data : List TrackEntry
  shipping_id : Option String
  awb_number : Option String
  courier_name : Option String
  label_url : Option String
  manifest_url : Option String
  payment_method : String
  total_amount : ℚ
  state : String
  hsn_code : String
  taxable_value : ℚ
  cgst_amount : ℚ
  sgst_amount : ℚ
  igst_amount : ℚ
  items : List OrderItem
  items_parse_ok : Bool
deriving Repr, DecidableEq

/-- Embedding of the order construction in `create_cod_order`
(src/routes/orders.py lines 179-238): tax is computed on
`order_data.amount`, while `total_amount` additionally receives the
COD charges; status starts at `pending` with a singleton history. -/
def create_cod_order (amount : ℚ) (codCharges : Option ℚ) (state : String)
    (name email : String) (items : List OrderItem) (now epoch : String) : Order :=
  let tax := calculate_tax_breakdown amount state
  let final_amount := amount + (codCharges.getD 0)
  { order_id := "ORD-" ++ epoch
    customer_name := name, email := email
    status := "pending"
    status_history := [{ status := "pending", timestamp := now
                         comment := "Order placed via COD" }]
    tracking_data := []
    shipping_id := none, awb_number := none, courier_name := none
    label_url := none, manifest_url := none
    payment_method := "cod"
    total_amount := final_amount
    state := state
    hsn_code := tax.hsn_code
    taxable_value := tax.taxable_value
    cgst_amount := tax.cgst_amount
    sgst_amount := tax.sgst_amount
    igst_amount := tax.igst_amount
    items := items, items_parse_ok := true }

/-- Embedding of the order construction shared by the verified online
payment flows (`update_order_status_callback` lines 866-898 and
`confirm_phonepe_order` lines 702-736): `total_amount` is exactly the
paid amount, tax is computed on it, status starts at `paid` with a
singleton history entry. -/
def create_online_order (amount : ℚ) (state : String) (name email : String)
    (items : List OrderItem) (oid now comment : String) : Order :=
  let tax := calculate_tax_breakdown amount state
  { order_id := oid
    customer_name := name, email := email
    status := "paid"
    status_history := [{ status := "paid", timestamp := now, comment := comment }]
    tracking_data := []
    shipping_id := none, awb_number := none, courier_name := none
    label_url := none, manifest_url := none
    payment_method := "online"
    total_amount := amount
    state := state
    hsn_code := tax.hsn_code
    taxable_value := tax.taxable_value
    cgst_amount := tax.cgst_amount
    sgst_amount := tax.sgst_amount
    igst_amount := tax.igst_amount
    items := items, items_parse_ok := true }

/-- Embedding of `RAPIDSHYP_STATUS_MAP` (src/routes/tracking.py lines
32-47). -/
def RAPIDSHYP_STATUS_MAP : List (String × String) :=
  [("ORDER_PLACED", "ordered"),
   ("PICKUP_SCHEDULED", "packed"),
   ("PICKUP_GENERATED", "packed"),
   ("READY_TO_SHIP", "packed"),
   ("MANIFESTED", "packed"),
   ("PICKED_UP", "shipped"),
   ("IN_TRANSIT", "in_transit"),
   ("REACHED_DESTINATION_HUB", "in_transit"),
   ("OUT_FOR_DELIVERY", "out_for_delivery"),
   ("DELIVERED", "delivered"),
   ("RTO_INITIATED", "rto"),
   ("RTO_DELIVERED", "rto_delivered"),
   ("CANCELLED", "cancelled")]

/-- Embedding of the inner `status_code_map` of `rapidshyp_webhook`
(src/routes/tracking.py lines 104-118). -/
def status_code_map : List (String × String) :=
  [("PSH", "packed"),
   ("PUC", "shipped"),
   ("SPD", "shipped"),
   ("INT", "in_transit"),
   ("RAD", "in_transit"),
   ("OFD", "out_for_delivery"),
   ("DEL", "delivered"),
   ("DELIVERED", "delivered"),
   ("RTO", "rto"),
   ("RTO_INT", "rto"),
   ("RTO_OFD", "rto"),
   ("RTO_DEL", "rto_delivered"),
   ("UND", "undelivered")]

/-- Upper-casing of an ASCII letter (Python `str.upper` on status
codes). -/
def upperChar (c : Char) : Char :=
  if 97 ≤ c.toNat ∧ c.toNat ≤ 122 then Char.ofNat (c.toNat - 32) else c

/-- Python `s.upper()` for carrier status codes. -/
def strUpper (s : String) : String := ⟨s.toList.map upperChar⟩

/-- Raw carrier scan inside a webhook payload
(`records[].shipment_details[].track_scans[]`). -/
structure TrackScan where
  scan : String
  scan_location : String
  scan_datetime : String
  rapidshyp_status_code : String
deriving Repr, DecidableEq

/-- One entry of `shipment_details` in a webhook record.  The Python
coalescing `shipment.get("shipment_status") or
shipment.get("current_tracking_status_code")` is embedded as the
already-coalesced `shipment_status`; `none` stands for both keys
missing or falsy. -/
structure ShipmentDetail where
  awb : Option String
  shipment_status : Option String
  courier_name : Option String
  track_scans : List TrackScan
deriving Repr, DecidableEq

/-- One entry of `records` in a webhook payload. -/
structure WebhookRecord where
  seller_order_id : Option String
  shipment_details : List ShipmentDetail
deriving Repr, DecidableEq

/-- Status resolution of `rapidshyp_webhook` (lines 120-124): look the
upper-cased code up in `status_code_map`, then in
`RAPIDSHYP_STATUS_MAP`, defaulting to the current order status. -/
def webhookStatusLookup (code : String) : Option String :=
  match List.lookup (strUpper code) status_code_map with
  | some v => some v
  | none => List.lookup (strUpper code) RAPIDSHYP_STATUS_MAP

/-- Conversion of a raw carrier scan to the internal tracking entry
(lines 126-134). -/
def convScan (sc : TrackScan) : TrackEntry :=
  { status := sc.scan, location := sc.scan_location
    timestamp := sc.scan_datetime, status_code := sc.rapidshyp_status_code }

/-- Mutation of one matched order for one shipment entry of a webhook
record (src/routes/tracking.py lines 103-153): resolve the status,
REPLACE `tracking_data` with the scans of the payload, update the
courier name when given, and append one `status_history` entry. -/
def processShipment (o : Order) (sh : ShipmentDetail) (now : String) : Order :=
  let varaha_status :=
    match sh.shipment_status with
    | none => o.status
    | some code => (webhookStatusLookup code).getD o.status
  let tracking_history := sh.track_scans.map convScan
  { o with
    status := varaha_status
    tracking_data := tracking_history
    courier_name := match sh.courier_name with
                    | some c => some c
                    | none => o.courier_name
    status_history := o.status_history ++
      [{ status := varaha_status, timestamp := now
         comment := "RapidShyp: " ++ (sh.shipment_status.getD "None") }] }

/-- Replacement of the first list element satisfying `p` by its image
under `f`, returning the new list and the order id of the replaced
element (the embedding of finding and mutating one ORM row). -/
def updateFirst (p : Order → Bool) (f : Order → Order) :
    List Order → Option (List Order × String)
  | [] => none
  | o :: rest =>
    if p o then some (f o :: rest, o.order_id)
    else (updateFirst p f rest).map (fun r => (o :: r.1, r.2))

/-- Fallback order resolution by seller order id (line 96-97). -/
def applyBySid (db : List Order) (sid : Option String) (sh : ShipmentDetail)
    (now : String) : List Order × Option String :=
  match sid with
  | some s =>
    match updateFirst (fun o => o.order_id == s) (fun o => processShipment o sh now) db with
    | some r => (r.1, some r.2)
    | none => (db, none)
  | none => (db, none)

/-- Order resolution and mutation for one (record, shipment) pair
(lines 92-101 and 136-156): find the order by AWB first, then by
seller order id; unmatched pairs leave the database unchanged. -/
def applyShipment (db : List Order) (sid : Option String) (sh : ShipmentDetail)
    (now : String) : List Order × Option String :=
  match sh.awb with
  | some a =>
    match updateFirst (fun o => o.awb_number == some a) (fun o => processShipment o sh now) db with
    | some r => (r.1, some r.2)
    | none => applyBySid db sid sh now
  | none => applyBySid db sid sh now

/-- Sequential processing of all (record, shipment) pairs of a webhook
payload, accumulating the ids of the updated orders. -/
def processPairs (now : String) :
    List Order → List (Option String × ShipmentDetail) → List Order × List String
  | db, [] => (db, [])
  | db, (sid, sh) :: rest =>
    let step := applyShipment db sid sh now
    let next := processPairs now step.1 rest
    (next.1, (step.2.toList) ++ next.2)

/-- Webhook payload after JSON parsing: the `records` list (empty when
the key is missing or falsy) together with the flat legacy keys. -/
structure RawPayload where
  records : List WebhookRecord
  awb : Option String
  order_id : Option String
  status : Option String
  scans : List TrackScan
deriving Repr, DecidableEq

/-- Incoming webhook request: either a body that fails JSON parsing
(the exception path of the handler) or a parsed payload. -/
inductive WebhookRequest where
  | badJson (msg : String)
  | json (p : RawPayload)
deriving Repr, DecidableEq

/-- Response value of the webhook handler: it always answers with one
of these, never with an exception past the request boundary. -/
inductive WebhookResponse where
  | ignored (reason : String)
  | success (updated_orders : List String)
  | errorResp (message : String)
deriving Repr, DecidableEq

/-- The ids reported as updated by a webhook response. -/
def WebhookResponse.updatedIds : WebhookResponse → List String
  | .success l => l
  | _ => []

/-- Embedding of `rapidshyp_webhook` (src/routes/tracking.py lines
49-176) over an order database: normalise the flat legacy shape into
one synthetic record, resolve and mutate each (record, shipment) pair
independently, skip unresolvable ones, and always return a response
value (the surrounding `try/except` turns any parse failure into an
`errorResp` with unchanged database). -/
def rapidshyp_webhook (db : List Order) (req : WebhookRequest) (now : String) :
    List Order × WebhookResponse :=
  match req with
  | .badJson msg => (db, .errorResp msg)
  | .json p =>
    if p.records.isEmpty && p.awb.isNone && p.order_id.isNone then
      (db, .ignored "no_records")
    else
      let records :=
        if p.records.isEmpty then
          [{ seller_order_id := p.order_id
             shipment_details := [{ awb := p.awb, shipment_status := p.status
                                    courier_name := none, track_scans := p.scans }] }]
        else p.records
      let pairs := records.flatMap
        (fun r => r.shipment_details.map (fun sh => (r.seller_order_id, sh)))
      let res := processPairs now db pairs
      (res.1, .success res.2)

/-- Tracking result returned by the shipping aggregator client for
`refresh_tracking`; `scans` embeds `result.get("scans") or
result.get("tracking_data") or []` and `current_status` the coalesced
status keys. -/
structure TrackResult where
  isError : Bool
  scans : List TrackEntry
  current_status : Option String
deriving Repr, DecidableEq

/-- Embedding of the order mutation of `refresh_tracking`
(src/routes/tracking.py lines 244-275): replace `tracking_data` by
the fetched scans when non-empty and map the fetched status through
`RAPIDSHYP_STATUS_MAP`, defaulting to the current status; note that
NO `status_history` entry is appended. -/
def refresh_tracking (o : Order) (r : TrackResult) : Order :=
  if r.isError then o
  else
    let o1 := if r.scans.isEmpty then o else { o with tracking_data := r.scans }
    match r.current_status with
    | some cs =>
      { o1 with status := (List.lookup (strUpper cs) RAPIDSHYP_STATUS_MAP).getD o1.status }
    | none => o1

/-- Shipment record extracted from a successful aggregator response
(`response["shipment"][0]`). -/
structure Shipment where
  shipmentId : String
  awb : String
  courierName : String
  labelURL : String
  manifestURL : String
deriving Repr, DecidableEq

/-- Aggregator response of `create_forward_order_wrapper`. -/
structure RsResponse where
  status : String
  orderCreated : Bool
  remarks : String
  shipments : List Shipment
deriving Repr, DecidableEq

/-- Outcome of one call to the shipping aggregator: a parsed response
or a client exception (timeout, malformed response, ...). -/
inductive CallResult where
  | ok (r : RsResponse)
  | exn (msg : String)
deriving Repr, DecidableEq

/-- Response selection of `ship_order` (src/routes/orders.py lines
1086-1104): when the first call fails with a pickup-address error and
pickup locations are available, the single retry response replaces the
first one; otherwise the first outcome stands. -/
def resolveResponse (call1 retryCall : CallResult) (locs : List String) : CallResult :=
  match call1 with
  | .exn m => .exn m
  | .ok r1 =>
    if r1.status == "FAILED" && strContains "Pickup address not found" r1.remarks
        && !locs.isEmpty then
      retryCall
    else .ok r1

/-- Error message construction for a final FAILED response (lines
1106-1119): the remarks, suffixed with the available pickup locations
when the failure is still a pickup-address error. -/
def failedMessage (remarks : String) (locs : List String) : String :=
  if strContains "Pickup address" remarks then
    remarks ++ ". AVAILABLE LOCATIONS: " ++ String.intercalate ", " locs
  else remarks

/-- Embedding of the admin ship action `ship_order`
(src/routes/orders.py lines 975-1161) as a state transformer: the
returned order is the stored row after the request (failure paths
raise before any mutation is committed, so they return the input
unchanged).  `enabled` is the RapidShyp toggle; `call1`/`retryCall`
the outcomes of the aggregator calls; `locs` the pickup locations
known to the aggregator account. -/
def ship_order (o : Order) (enabled : Bool) (now epoch : String)
    (call1 retryCall : CallResult) (locs : List String) :
    Order × Except String Shipment :=
  if o.shipping_id.isSome then (o, .error "Order already shipped")
  else if !enabled then
    let sh : Shipment := { shipmentId := "MOCK-SHIP-" ++ epoch
                           awb := "MOCK-AWB-" ++ epoch
                           courierName := "Mock Courier"
                           labelURL := "", manifestURL := "" }
    ({ o with
       shipping_id := some sh.shipmentId
       awb_number := some sh.awb
       courier_name := some sh.courierName
       status := "Shipped"
       status_history := o.status_history ++
         [{ status := "Shipped", timestamp := now
            comment := "Order shipped via Mock Courier" }] },
     .ok sh)
  else
    match resolveResponse call1 retryCall locs with
    | .exn m => (o, .error ("RapidShyp Client Error: " ++ m))
    | .ok r =>
      if r.status == "FAILED" then
        (o, .error ("RapidShyp Error: " ++ failedMessage r.remarks locs))
      else if r.status == "SUCCESS" || r.orderCreated then
        match r.shipments with
        | sh :: _ =>
          ({ o with
             shipping_id := some sh.shipmentId
             awb_number := some sh.awb
             courier_name := some sh.courierName
             label_url := some sh.labelURL
             manifest_url := some sh.manifestURL
             status := "Shipped"
             status_history := o.status_history ++
               [{ status := "Shipped", timestamp := now
                  comment := "Shipped via " ++ sh.courierName ++ ". AWB: " ++ sh.awb }] },
           .ok sh)
        | [] => (o, .error ("Failed to create shipment: " ++ r.remarks))
      else (o, .error ("Failed to create shipment: " ++ r.remarks))

/-- The fixed status vocabulary of the specification (section 4.2),
written from the words of the spec. -/
def specStatusVocabulary : List String :=
  ["pending", "paid", "ordered", "packed", "shipped", "in_transit",
   "out_for_delivery", "delivered", "rto", "rto_delivered", "cancelled",
   "undelivered"]

/-- Mask test of `update_gateway` (src/routes/gateways.py line 86):
a string credential value is masked when it contains the mask. -/
def isMaskedVal (v : String) : Bool := strContains "********" v

/-- Python dictionary lookup on an association list. -/
def dictGet (k : String) : List (String × String) → Option String
  | [] => none
  | (k', v) :: rest => if k' == k then some v else dictGet k rest

/-- Python dictionary insertion on an association list: replace the
first binding of the key in place, else append. -/
def dictInsert : List (String × String) → String → String → List (String × String)
  | [], k, v => [(k, v)]
  | (k', v') :: rest, k, v =>
    if k' == k then (k, v) :: rest else (k', v') :: dictInsert rest k v

/-- Embedding of the credential update logic of `update_gateway`
(src/routes/gateways.py lines 80-103): replace wholesale when no
incoming value is masked, otherwise start from the stored credentials
and copy over only the non-masked incoming values. -/
def update_credentials (existing incoming : List (String × String)) :
    List (String × String) :=
  if incoming.any (fun kv => isMaskedVal kv.2) then
    incoming.foldl
      (fun m kv => if isMaskedVal kv.2 then m else dictInsert m kv.1 kv.2)
      existing
  else incoming

/-- Embedding of the masking of `read_gateways` (src/routes/gateways.py
lines 52-61): replace the `key_secret` value by the mask when
present. -/
def mask_credentials (creds : List (String × String)) : List (String × String) :=
  if (dictGet "key_secret" creds).isSome then
    dictInsert creds "key_secret" "********"
  else creds

/-- Running B2CS group entry of the GSTR1 aggregation (`b2cs_map`
values, src/routes/reports.py lines 182-217). -/
@[ext]
structure B2CSEntry where
  sply_ty : String
  rt : ℤ
  typ : String
  pos : String
  txval : ℚ
  iamt : ℚ
  csamt : ℚ
deriving Repr, DecidableEq

/-- Formatted B2CS output entry (lines 237-261); `iamt` is emitted
only for inter-state groups. -/
structure B2CSOut where
  sply_ty : String
  rt : ℤ
  typ : String
  pos : String
  txval : ℚ
  csamt : ℚ
  iamt : Option ℚ
deriving Repr, DecidableEq

/-- Running HSN totals for the single code 7117 (lines 146-159). -/
structure HsnTotals where
  qty : ℤ
  txval : ℚ
  iamt : ℚ
  samt : ℚ
  camt : ℚ
deriving Repr, DecidableEq

/-- Formatted HSN summary line (lines 263-277). -/
structure HsnOut where
  num : ℤ
  hsn_sc : String
  uqc : String
  qty : ℤ
  rt : ℤ
  txval : ℚ
  iamt : ℚ
  samt : ℚ
  camt : ℚ
  csamt : ℚ
deriving Repr, DecidableEq

/-- Place-of-supply resolution (lines 165-176): exact dictionary hit,
then the first mapping key whose lower-cased name is a substring of
the lower-cased state, then the unknown code "00".  The state mapping
`GSTR1_STATE_MAPPING` lives in `gst_states.py`, which is not part of
the sources at hand, so the aggregation is parametrised by it. -/
def posResolve (mapping : List (String × String)) (state : String) : String :=
  match List.lookup state mapping with
  | some v => v
  | none =>
    match mapping.find?
        (fun kv => containsSub (kv.1.toList.map lowerChar) (state.toList.map lowerChar)) with
    | some kv => kv.2
    | none => "00"

/-- Fresh group entry for a key (lines 182-191): the classification is
seeded from the tax columns of the FIRST order seen under the key. -/
def initB2CS (pos : String) (o : Order) : B2CSEntry :=
  { sply_ty := if 0 < o.igst_amount then "INTER" else "INTRA"
    rt := 3, typ := "OE", pos := pos, txval := 0, iamt := 0, csamt := 0 }

/-- Accumulation of one order into its group entry (lines 198-217):
sum taxable value and IGST; any member with positive CGST forces the
classification to INTRA (and nothing ever resets it to INTER). -/
def applyB2CS (e : B2CSEntry) (o : Order) : B2CSEntry :=
  let e1 := { e with txval := e.txval + o.taxable_value
                     iamt := e.iamt + o.igst_amount }
  if 0 < o.cgst_amount then { e1 with sply_ty := "INTRA" } else e1

/-- Insertion-ordered dictionary update of `b2cs_map` for one order. -/
def b2csUpsert (pos : String) (o : Order) :
    List (String × B2CSEntry) → List (String × B2CSEntry)
  | [] => [(pos, applyB2CS (initB2CS pos o) o)]
  | (k, e) :: rest =>
    if k == pos then (k, applyB2CS e o) :: rest
    else (k, e) :: b2csUpsert pos o rest

/-- Item quantity contribution of one order (lines 229-234): the sum
of the `quantity` keys (default 1); parse failures contribute nothing
and are not fatal. -/
def orderQty (o : Order) : ℤ :=
  if o.items_parse_ok then (o.items.map (fun i => i.quantity.getD 1)).sum else 0

/-- Accumulation of one order into the HSN totals (lines 219-234). -/
def applyHsn (h : HsnTotals) (o : Order) : HsnTotals :=
  { qty := h.qty + orderQty o
    txval := h.txval + o.taxable_value
    iamt := h.iamt + o.igst_amount
    samt := h.samt + o.sgst_amount
    camt := h.camt + o.cgst_amount }

/-- Processing of one order of the report (lines 161-234): orders
without positive taxable value are skipped. -/
def gstr1Step (mapping : List (String × String))
    (acc : List (String × B2CSEntry) × HsnTotals) (o : Order) :
    List (String × B2CSEntry) × HsnTotals :=
  if o.taxable_value ≤ 0 then acc
  else (b2csUpsert (posResolve mapping o.state) o acc.1, applyHsn acc.2 o)

/-- Output formatting of one B2CS group (lines 237-261). -/
def fmtB2CS (kv : String × B2CSEntry) : B2CSOut :=
  { sply_ty := kv.2.sply_ty, rt := kv.2.rt, typ := kv.2.typ, pos := kv.2.pos
    txval := round2 kv.2.txval, csamt := 0
    iamt := if kv.2.sply_ty == "INTER" then some (round2 kv.2.iamt) else none }

/-- Output formatting of the HSN summary (lines 263-277). -/
def fmtHsn (h : HsnTotals) : HsnOut :=
  { num := 1, hsn_sc := "7117", uqc := "PCS", qty := h.qty, rt := 3
    txval := round2 h.txval, iamt := round2 h.iamt, samt := round2 h.samt
    camt := round2 h.camt, csamt := 0 }

/-- Non-cancelled orders of the report (the query filter
`Order.status != "cancelled"` of line 130). -/
def gstr1Eligible (orders : List Order) : List Order :=
  orders.filter (fun o => !(o.status == "cancelled"))

/-- The accumulated `b2cs_map` and HSN totals of the report loop. -/
def gstr1Acc (mapping : List (String × String)) (orders : List Order) :
    List (String × B2CSEntry) × HsnTotals :=
  (gstr1Eligible orders).foldl (gstr1Step mapping) ([], ⟨0, 0, 0, 0, 0⟩)

/-- Embedding of the aggregation core of `get_gstr1_json`
(src/routes/reports.py lines 126-290): non-cancelled orders of the
range (the date filter happens in the query and is embedded as the
given order list), grouped by place of supply at the fixed 3 percent
rate, plus the single HSN summary line emitted when its taxable total
is positive. -/
def get_gstr1_aggregate (mapping : List (String × String)) (orders : List Order) :
    List B2CSOut × List HsnOut :=
  ((gstr1Acc mapping orders).1.map fmtB2CS,
   if 0 < (gstr1Acc mapping orders).2.txval then [fmtHsn (gstr1Acc mapping orders).2] else [])

/-- Association-list lookup on the accumulated `b2cs_map`. -/
def b2csGet (k : String) : List (String × B2CSEntry) → Option B2CSEntry
  | [] => none
  | (k', e) :: rest => if k' == k then some e else b2csGet k rest

/-- Membership of an order in the B2CS group of a key: positive
taxable value and matching place-of-supply code. -/
def memberFilter (mapping : List (String × String)) (key : String) (o : Order) : Bool :=
  !decide (o.taxable_value ≤ 0) && (posResolve mapping o.state == key)

/-- Group accumulation as seen by one key: fold the members into an
optional entry, creating it from the first member. -/
def entryFold (key : String) : Option B2CSEntry → List Order → Option B2CSEntry
  | e0, [] => e0
  | e0, o :: rest => entryFold key (some (applyB2CS (e0.getD (initB2CS key o)) o)) rest

/-- Spec-side classification rule, written from the words of the
claim: the classification of a group is decided by the tax pattern of
the LAST-SEEN order under that key (IGST populated means inter-state,
otherwise intra-state). -/
def specClassifyLastSeen (members : List Order) : String :=
  match members.getLast? with
  | some last => if 0 < last.igst_amount then "INTER" else "INTRA"
  | none => "INTRA"

/-- Sample already-shipped order used as a concrete webhook target. -/
def oA : Order :=
  { order_id := "ORD-1700000000"
    customer_name := "Asha", email := "asha@example.com"
    status := "shipped"
    status_history := [{ status := "pending", timestamp := "t0", comment := "Order placed via COD" },
                       { status := "Shipped", timestamp := "t1", comment := "Order shipped via Mock Courier" }]
    tracking_data := [{ status := "Picked up", location := "JAIPUR", timestamp := "t1", status_code := "PUC" }]
    shipping_id := some "SHIP-1", awb_number := some "AWB-1"
    courier_name := some "Delhivery", label_url := none, manifest_url := none
    payment_method := "cod", total_amount := 1080
    state := "Rajasthan", hsn_code := "7117"
    taxable_value := 1000, cgst_amount := 15, sgst_amount := 15, igst_amount := 0
    items := [{ quantity := some 2 }], items_parse_ok := true }

/-- Sample webhook shipment entry carrying a known status code and one
raw scan. -/
def shDel : ShipmentDetail :=
  { awb := some "AWB-1", shipment_status := some "DEL"
    courier_name := none
    track_scans := [{ scan := "Delivered", scan_location := "JAIPUR"
                      scan_datetime := "2026-01-02", rapidshyp_status_code := "DEL" }] }

/-- Webhook payload whose single record resolves to no stored order. -/
def pNoMatch : RawPayload :=
  { records := [{ seller_order_id := some "ORD-404"
                  shipment_details := [{ awb := some "AWB-404"
                                         shipment_status := some "DEL"
                                         courier_name := none
                                         track_scans := [] }] }]
    awb := none, order_id := none, status := none, scans := [] }

/-- Sample paid order that has not been handed to the aggregator. -/
def oB : Order :=
  { order_id := "ORD-2000000000"
    customer_name := "Bela", email := "bela@example.com"
    status := "paid"
    status_history := [{ status := "paid", timestamp := "t0"
                         comment := "Payment via PhonePe. TxnID: TX1" }]
    tracking_data := []
    shipping_id := none, awb_number := none
    courier_name := none, label_url := none, manifest_url := none
    payment_method := "online", total_amount := 1030
    state := "Maharashtra", hsn_code := "7117"
    taxable_value := 1000, cgst_amount := 0, sgst_amount := 0, igst_amount := 30
    items := [{ quantity := some 1 }], items_parse_ok := true }

/-- The credential-merge fold of `update_gateway`. -/
def mergeFold (existing incoming : List (String × String)) : List (String × String) :=
  incoming.foldl
    (fun m kv => if isMaskedVal kv.2 then m else dictInsert m kv.1 kv.2) existing

/-- Webhook payload matching the sample order `oA` by AWB, carrying
one raw scan. -/
def pA : RawPayload :=
  { records := [{ seller_order_id := some "ORD-1700000000"
                  shipment_details := [{ awb := some "AWB-1"
                                         shipment_status := some "INT"
                                         courier_name := none
                                         track_scans := [{ scan := "In transit hub"
                                                           scan_location := "DELHI"
                                                           scan_datetime := "t5"
                                                           rapidshyp_status_code := "INT" }] }] }]
    awb := none, order_id := none, status := none, scans := [] }

/-- Synchronisation invariant claimed by the spec: the current status
equals the status of the last `status_history` entry. -/
def statusSynced (o : Order) : Prop :=
  (o.status_history.getLast?).map HistEntry.status = some o.status

/-- Sample shipped order whose history is in sync with its status. -/
def oD : Order :=
  { order_id := "ORD-3000000000"
    customer_name := "Devi", email := "devi@example.com"
    status := "shipped"
    status_history := [{ status := "pending", timestamp := "t0", comment := "Order placed via COD" },
                       { status := "shipped", timestamp := "t1", comment := "RapidShyp: PICKED_UP" }]
    tracking_data := []
    shipping_id := some "SHIP-3", awb_number := some "AWB-3"
    courier_name := some "Delhivery", label_url := none, manifest_url := none
    payment_method := "cod", total_amount := 1030
    state := "Rajasthan", hsn_code := "7117"
    taxable_value := 1000, cgst_amount := 15, sgst_amount := 15, igst_amount := 0
    items := [], items_parse_ok := true }

/-- Successful aggregator response carrying one shipment. -/
def shipOkResp : RsResponse :=
  { status := "SUCCESS", orderCreated := true, remarks := ""
    shipments := [{ shipmentId := "SH9", awb := "AWB9", courierName := "Delhivery"
                    labelURL := "lab", manifestURL := "man" }] }

/-- Sample state mapping for the GSTR1 scenarios (the real
`GSTR1_STATE_MAPPING` lives in the missing `gst_states.py`). -/
def m0 : List (String × String) := [("Rajasthan", "08"), ("Maharashtra", "27")]

/-- Intra-state taxed report order: 1000 taxable, 15 + 15 CGST/SGST. -/
def oR : Order :=
  { order_id := "ORD-R", customer_name := "R", email := "r@e"
    status := "paid", status_history := [], tracking_data := []
    shipping_id := none, awb_number := none, courier_name := none
    label_url := none, manifest_url := none
    payment_method := "online", total_amount := 1030
    state := "Rajasthan", hsn_code := "7117"
    taxable_value := 1000, cgst_amount := 15, sgst_amount := 15, igst_amount := 0
    items := [{ quantity := some 2 }], items_parse_ok := true }

/-- Inter-state taxed report order: 1000 taxable, 30 IGST. -/
def oM : Order :=
  { order_id := "ORD-M", customer_name := "M", email := "m@e"
    status := "paid", status_history := [], tracking_data := []
    shipping_id := none, awb_number := none, courier_name := none
    label_url := none, manifest_url := none
    payment_method := "online", total_amount := 1030
    state := "Maharashtra", hsn_code := "7117"
    taxable_value := 1000, cgst_amount := 0, sgst_amount := 0, igst_amount := 30
    items := [{ quantity := some 1 }], items_parse_ok := true }

/-- Inter-state taxed order whose destination string maps to the SAME
key as `oR` — a mixed-pattern group under one key. -/
def oM2 : Order :=
  { order_id := "ORD-M2", customer_name := "M2", email := "m2@e"
    status := "paid", status_history := [], tracking_data := []
    shipping_id := none, awb_number := none, courier_name := none
    label_url := none, manifest_url := none
    payment_method := "online", total_amount := 1030
    state := "Rajasthan", hsn_code := "7117"
    taxable_value := 1000, cgst_amount := 0, sgst_amount := 0, igst_amount := 30
    items := [], items_parse_ok := true }

end Varaha

namespace Varaha

/-- C1: for every gross amount and destination state the code tax
breakdown agrees with the spec formula (taxable value, the double
rounding of the CGST/SGST halves, the IGST fallback for non-matching,
empty or unparseable states), and the concrete scenario of amount 1030
with state "Rajasthan" yields taxable 1000, CGST 15, SGST 15, IGST 0. -/
theorem C1_tax_breakdown :
    (∀ (amount : ℚ) (state : String),
      calculate_tax_breakdown amount state = taxSpec amount state) ∧
    calculate_tax_breakdown 1030 "Rajasthan" =
      { hsn_code := "7117", taxable_value := 1000, cgst_amount := 15
        sgst_amount := 15, igst_amount := 0, state := "Rajasthan" } := by
  constructor
  · intro amount state
    unfold calculate_tax_breakdown taxSpec isRajasthan
    cases hc : containsSub "rajasthan".toList (normChars state) <;> simp [hc]
  · have h9 : isRajasthan "Rajasthan" = true := by decide
    have ht : round2 ((1030 : ℚ) / (103/100)) = 1000 := by
      have h : (100 : ℚ) * (1030 / (103/100)) = ((100000 : ℤ) : ℚ) := by norm_num
      rw [round2_eval _ _ h]; norm_num
    have hg : round2 ((1030 : ℚ) - 1000) = 30 := by
      have h : (100 : ℚ) * (1030 - 1000) = ((3000 : ℤ) : ℚ) := by norm_num
      rw [round2_eval _ _ h]; norm_num
    have hc2 : round2 ((30 : ℚ) / 2) = 15 := by
      have h : (100 : ℚ) * (30 / 2) = ((1500 : ℤ) : ℚ) := by norm_num
      rw [round2_eval _ _ h]; norm_num
    simp [calculate_tax_breakdown, h9, ht, hg, hc2]

/-- C8: webhook status codes found in the fixed lookup tables (the
inner code table first, then the named status map) move the matched
order to the mapped internal status; a code absent from both tables,
or an absent status, leaves the status field unchanged; in every case
the raw scans of the payload are recorded in the tracking log. -/
theorem C8_webhook_status_mapping (o : Order) (sh : ShipmentDetail) (now : String) :
    (∀ s v, sh.shipment_status = some s → webhookStatusLookup s = some v →
      (processShipment o sh now).status = v) ∧
    (∀ s, sh.shipment_status = some s → webhookStatusLookup s = none →
      (processShipment o sh now).status = o.status) ∧
    (sh.shipment_status = none → (processShipment o sh now).status = o.status) ∧
    (processShipment o sh now).tracking_data = sh.track_scans.map convScan := by
  refine ⟨?_, ?_, ?_, ?_⟩
  · intro s v hs hv
    simp [processShipment, hs, hv]
  · intro s hs hv
    simp [processShipment, hs, hv]
  · intro hs
    simp [processShipment, hs]
  · simp [processShipment]

/-- Witness for C8: the mapped code `DEL` delivers the sample order
and its scan list replaces the tracking log. -/
theorem C8_webhook_status_mapping_witness :
    (processShipment oA shDel "t2").status = "delivered" ∧
    (processShipment oA shDel "t2").tracking_data = shDel.track_scans.map convScan :=
  ⟨(C8_webhook_status_mapping oA shDel "t2").1 "DEL" "delivered" rfl (by decide),
   (C8_webhook_status_mapping oA shDel "t2").2.2.2⟩

theorem updateFirst_length (p : Order → Bool) (f : Order → Order) :
    ∀ (db : List Order) (r : List Order × String),
      updateFirst p f db = some r → r.1.length = db.length := by
  intro db
  induction db with
  | nil => intro r h; simp [updateFirst] at h
  | cons o rest ih =>
    intro r h
    rw [updateFirst] at h
    by_cases hp : p o
    · simp only [hp, if_true, Option.some.injEq] at h
      subst h
      simp
    · simp only [hp, if_false, Bool.false_eq_true] at h
      cases hu : updateFirst p f rest with
      | none => simp [hu] at h
      | some r' =>
        rw [hu] at h
        have hr : (o :: r'.1, r'.2) = r := by simpa using h
        subst hr
        simp [ih r' hu]

theorem updateFirst_mem (p : Order → Bool) (f : Order → Order) :
    ∀ (db : List Order) (r : List Order × String) (o : Order),
      updateFirst p f db = some r → o ∈ db → o.order_id ≠ r.2 → o ∈ r.1 := by
  intro db
  induction db with
  | nil => intro r o h; simp [updateFirst] at h
  | cons o1 rest ih =>
    intro r o h hmem hne
    rw [updateFirst] at h
    by_cases hp : p o1
    · simp only [hp, if_true, Option.some.injEq] at h
      subst h
      rcases List.mem_cons.mp hmem with hmem | hmem
      · exact absurd (congrArg Order.order_id hmem) (by simpa using hne)
      · exact List.mem_cons_of_mem _ hmem
    · simp only [hp, if_false, Bool.false_eq_true] at h
      cases hu : updateFirst p f rest with
      | none => simp [hu] at h
      | some r' =>
        rw [hu] at h
        have hr : (o1 :: r'.1, r'.2) = r := by simpa using h
        subst hr
        rcases List.mem_cons.mp hmem with hmem | hmem
        · simp [hmem]
        · exact List.mem_cons_of_mem _ (ih r' o hu hmem (by simpa using hne))

theorem applyShipment_length (db : List Order) (sid : Option String)
    (sh : ShipmentDetail) (now : String) :
    (applyShipment db sid sh now).1.length = db.length := by
  have hsid : (applyBySid db sid sh now).1.length = db.length := by
    unfold applyBySid
    rcases sid with _ | s
    · rfl
    · cases hu : updateFirst (fun o => o.order_id == s) (fun o => processShipment o sh now) db with
      | none => simp [hu]
      | some r => simp [hu, updateFirst_length _ _ db r hu]
  unfold applyShipment
  rcases sh.awb with _ | a
  · exact hsid
  · cases hu : updateFirst (fun o => o.awb_number == some a) (fun o => processShipment o sh now) db with
    | none => simp only [hu]; exact hsid
    | some r => simp [hu, updateFirst_length _ _ db r hu]

theorem applyBySid_mem (db : List Order) (sid : Option String)
    (sh : ShipmentDetail) (now : String) (o : Order) (hmem : o ∈ db)
    (hid : ∀ oid, (applyBySid db sid sh now).2 = some oid → o.order_id ≠ oid) :
    o ∈ (applyBySid db sid sh now).1 := by
  unfold applyBySid at hid ⊢
  rcases sid with _ | s
  · exact hmem
  · cases hu : updateFirst (fun o => o.order_id == s) (fun o => processShipment o sh now) db with
    | none => simpa [hu] using hmem
    | some r =>
      simp only [hu]
      refine updateFirst_mem _ _ db r o hu hmem ?_
      have := hid r.2 (by simp [hu])
      exact this

theorem applyShipment_mem (db : List Order) (sid : Option String)
    (sh : ShipmentDetail) (now : String) (o : Order) (hmem : o ∈ db)
    (hid : ∀ oid, (applyShipment db sid sh now).2 = some oid → o.order_id ≠ oid) :
    o ∈ (applyShipment db sid sh now).1 := by
  cases hawb : sh.awb with
  | none =>
    have h2 : applyShipment db sid sh now = applyBySid db sid sh now := by
      unfold applyShipment; rw [hawb]
    rw [h2] at hid ⊢
    exact applyBySid_mem db sid sh now o hmem hid
  | some a =>
    cases hu : updateFirst (fun o => o.awb_number == some a) (fun o => processShipment o sh now) db with
    | none =>
      have h2 : applyShipment db sid sh now = applyBySid db sid sh now := by
        unfold applyShipment; rw [hawb]; dsimp only; rw [hu]
      rw [h2] at hid ⊢
      exact applyBySid_mem db sid sh now o hmem hid
    | some r =>
      have h2 : applyShipment db sid sh now = (r.1, some r.2) := by
        unfold applyShipment; rw [hawb]; dsimp only; rw [hu]
      rw [h2] at hid ⊢
      exact updateFirst_mem _ _ db r o hu hmem (hid r.2 rfl)

theorem processPairs_length (now : String) :
    ∀ (pairs : List (Option String × ShipmentDetail)) (db : List Order),
      (processPairs now db pairs).1.length = db.length := by
  intro pairs
  induction pairs with
  | nil => intro db; rfl
  | cons p rest ih =>
    intro db
    rw [processPairs]
    rw [ih]
    exact applyShipment_length db p.1 p.2 now

theorem processPairs_mem (now : String) :
    ∀ (pairs : List (Option String × ShipmentDetail)) (db : List Order) (o : Order),
      o ∈ db → o.order_id ∉ (processPairs now db pairs).2 →
      o ∈ (processPairs now db pairs).1 := by
  intro pairs
  induction pairs with
  | nil => intro db o hmem _; exact hmem
  | cons p rest ih =>
    intro db o hmem hnot
    rw [processPairs] at hnot ⊢
    simp only [List.mem_append] at hnot
    push_neg at hnot
    refine ih _ o ?_ hnot.2
    refine applyShipment_mem db p.1 p.2 now o hmem ?_
    intro oid hoid hcontra
    exact hnot.1 (by simp [hoid, hcontra])

/-- C9: for every webhook request — bad JSON, empty payloads, records
matching no stored order — the handler is a total function into a
response value (never an exception past the request boundary), it
never drops or adds order rows, and every stored order it does not
report as updated is still present unchanged: unresolvable records are
skipped rather than failing the call. -/
theorem C9_webhook_never_fails (db : List Order) (req : WebhookRequest) (now : String) :
    (rapidshyp_webhook db req now).1.length = db.length ∧
    (∀ o, o ∈ db →
      o.order_id ∉ ((rapidshyp_webhook db req now).2).updatedIds →
      o ∈ (rapidshyp_webhook db req now).1) := by
  cases req with
  | badJson m => exact ⟨rfl, fun o hmem _ => hmem⟩
  | json p =>
    rw [rapidshyp_webhook]
    by_cases hc : (p.records.isEmpty && p.awb.isNone && p.order_id.isNone) = true
    · simp only [hc, if_true]
      refine ⟨by simp, ?_⟩
      intro o hmem _
      simpa using hmem
    · simp only [hc, if_false, Bool.false_eq_true]
      constructor
      · exact processPairs_length now _ db
      · intro o hmem hnot
        refine processPairs_mem now _ db o hmem ?_
        simpa [WebhookResponse.updatedIds] using hnot

/-- Witness for C9: a record matching no stored order leaves the
sample database untouched. -/
theorem C9_webhook_never_fails_witness :
    oA ∈ (rapidshyp_webhook [oA] (.json pNoMatch) "t3").1 :=
  (C9_webhook_never_fails [oA] (.json pNoMatch) "t3").2 oA (by simp) (by decide)

/-- C7: whenever the aggregator interaction of the admin ship action
fails — a client exception (timeout), or a response still FAILED after
the single pickup-address retry — the stored order is returned
entirely unmodified and a descriptive error is surfaced; more
generally every error outcome of the action leaves the order
unchanged. -/
theorem C7_ship_failure_leaves_order (o : Order) (now epoch : String)
    (call1 retryCall : CallResult) (locs : List String) :
    (∀ msg, (ship_order o true now epoch call1 retryCall locs).2 = .error msg →
      (ship_order o true now epoch call1 retryCall locs).1 = o) ∧
    (o.shipping_id = none →
      (∀ m, resolveResponse call1 retryCall locs = .exn m →
        (ship_order o true now epoch call1 retryCall locs).2 =
          .error ("RapidShyp Client Error: " ++ m)) ∧
      (∀ r, resolveResponse call1 retryCall locs = .ok r → r.status = "FAILED" →
        (ship_order o true now epoch call1 retryCall locs).2 =
          .error ("RapidShyp Error: " ++ failedMessage r.remarks locs))) := by
  by_cases hs : o.shipping_id.isSome
  · constructor
    · intro msg _
      simp [ship_order, hs]
    · intro hnone
      rw [hnone] at hs
      simp at hs
  · have hsn : o.shipping_id.isSome = false := by simpa using hs
    constructor
    · intro msg hmsg
      cases hr : resolveResponse call1 retryCall locs with
      | exn m => simp [ship_order, hsn, hr]
      | ok r =>
        by_cases hf : (r.status == "FAILED") = true
        · simp [ship_order, hsn, hr, hf]
        · by_cases hsucc : (r.status == "SUCCESS" || r.orderCreated) = true
          · cases hsh : r.shipments with
            | nil => simp [ship_order, hsn, hr, hf, hsucc, hsh]
            | cons sh rest =>
              rw [ship_order] at hmsg
              simp [hsn, hr, hf, hsucc, hsh] at hmsg
          · simp [ship_order, hsn, hr, hf, hsucc]
    · intro hnone
      constructor
      · intro m hm
        simp [ship_order, hsn, hm]
      · intro r hr hFAIL
        have hf : (r.status == "FAILED") = true := by simp [hFAIL]
        simp [ship_order, hsn, hr, hf]

/-- Witness for C7: a timed-out aggregator call on the sample unshipped
order surfaces a client error and leaves the order unchanged. -/
theorem C7_ship_failure_leaves_order_witness :
    (ship_order oB true "t4" "e4" (.exn "timeout") (.exn "x") []).2 =
      .error ("RapidShyp Client Error: " ++ "timeout") ∧
    (ship_order oB true "t4" "e4" (.exn "timeout") (.exn "x") []).1 = oB := by
  have h := C7_ship_failure_leaves_order oB "t4" "e4" (.exn "timeout") (.exn "x") []
  have herr := (h.2 rfl).1 "timeout" rfl
  exact ⟨herr, h.1 _ herr⟩

theorem dictGet_dictInsert_self (m : List (String × String)) (k v : String) :
    dictGet k (dictInsert m k v) = some v := by
  induction m with
  | nil => simp [dictGet, dictInsert]
  | cons kv rest ih =>
    obtain ⟨k', v'⟩ := kv
    by_cases h : k' = k
    · simp [dictGet, dictInsert, h]
    · simp [dictGet, dictInsert, h, ih]

theorem dictGet_dictInsert_other (m : List (String × String)) (k v k' : String)
    (h : k' ≠ k) : dictGet k' (dictInsert m k v) = dictGet k' m := by
  have hne : ¬ k = k' := fun hh => h hh.symm
  induction m with
  | nil => simp [dictGet, dictInsert, hne]
  | cons kv rest ih =>
    obtain ⟨k1, v1⟩ := kv
    by_cases h1 : k1 = k
    · subst h1
      simp [dictGet, dictInsert, hne]
    · simp only [dictInsert, beq_iff_eq, h1, if_false]
      by_cases h2 : k1 = k'
      · simp [dictGet, h2]
      · simp [dictGet, h2, ih]

theorem dictInsert_mem_self (m : List (String × String)) (k v : String) :
    (k, v) ∈ dictInsert m k v := by
  induction m with
  | nil => simp [dictInsert]
  | cons kv rest ih =>
    obtain ⟨k1, v1⟩ := kv
    by_cases h1 : k1 = k
    · simp [dictInsert, h1]
    · simp only [dictInsert, beq_iff_eq, h1, if_false]
      exact List.mem_cons_of_mem _ ih

theorem dictInsert_keys_mem (m : List (String × String)) (k v x : String) :
    x ∈ (dictInsert m k v).map Prod.fst ↔ x ∈ m.map Prod.fst ∨ x = k := by
  induction m with
  | nil => simp [dictInsert]
  | cons kv rest ih =>
    obtain ⟨k1, v1⟩ := kv
    by_cases h1 : k1 = k
    · subst h1
      simp [dictInsert]
      tauto
    · simp only [dictInsert, beq_iff_eq, h1, if_false, List.map_cons, List.mem_cons, ih]
      tauto

theorem dictInsert_keys_nodup (m : List (String × String)) (k v : String)
    (h : (m.map Prod.fst).Nodup) : ((dictInsert m k v).map Prod.fst).Nodup := by
  induction m with
  | nil => simp [dictInsert]
  | cons kv rest ih =>
    obtain ⟨k1, v1⟩ := kv
    simp only [List.map_cons, List.nodup_cons] at h
    by_cases h1 : k1 = k
    · subst h1
      simpa [dictInsert] using h
    · simp only [dictInsert, beq_iff_eq, h1, if_false, List.map_cons, List.nodup_cons]
      refine ⟨?_, ih h.2⟩
      rw [dictInsert_keys_mem]
      rintro (hx | hx)
      · exact h.1 hx
      · exact h1 hx

theorem dictGet_none_not_mem (m : List (String × String)) (k : String)
    (h : dictGet k m = none) : k ∉ m.map Prod.fst := by
  induction m with
  | nil => simp
  | cons kv rest ih =>
    obtain ⟨k1, v1⟩ := kv
    by_cases h1 : k1 = k
    · simp [dictGet, h1] at h
    · simp only [dictGet, beq_iff_eq, h1, if_false] at h
      simp only [List.map_cons, List.mem_cons]
      rintro (hx | hx)
      · exact h1 hx.symm
      · exact ih h hx

theorem mergeFold_untouched :
    ∀ (incoming existing : List (String × String)) (k : String),
      k ∉ incoming.map Prod.fst →
      dictGet k (mergeFold existing incoming) = dictGet k existing := by
  intro incoming
  induction incoming with
  | nil => intro existing k _; rfl
  | cons kv rest ih =>
    intro existing k hk
    simp only [List.map_cons, List.mem_cons] at hk
    push_neg at hk
    rw [mergeFold, List.foldl_cons]
    rw [show List.foldl _ _ rest = mergeFold (if isMaskedVal kv.2 then existing else dictInsert existing kv.1 kv.2) rest from rfl]
    rw [ih _ k hk.2]
    by_cases hm : isMaskedVal kv.2
    · simp [hm]
    · simp only [hm, Bool.false_eq_true, if_false]
      exact dictGet_dictInsert_other _ _ _ _ hk.1

theorem mergeFold_mem :
    ∀ (incoming : List (String × String)),
      (incoming.map Prod.fst).Nodup →
      ∀ (existing : List (String × String)) (k v : String), (k, v) ∈ incoming →
        (isMaskedVal v = true →
          dictGet k (mergeFold existing incoming) = dictGet k existing) ∧
        (isMaskedVal v = false →
          dictGet k (mergeFold existing incoming) = some v) := by
  intro incoming
  induction incoming with
  | nil =>
    intro _ existing k v hmem
    simp at hmem
  | cons kv rest ih =>
    intro hnd existing k v hmem
    simp only [List.map_cons, List.nodup_cons] at hnd
    rw [mergeFold, List.foldl_cons,
        show List.foldl _ _ rest = mergeFold (if isMaskedVal kv.2 then existing else dictInsert existing kv.1 kv.2) rest from rfl]
    rcases List.mem_cons.mp hmem with heq | hmem'
    · have hkk : kv = (k, v) := heq.symm
      subst hkk
      have hknot : k ∉ rest.map Prod.fst := hnd.1
      rw [mergeFold_untouched rest _ k hknot]
      constructor
      · intro hmv
        simp [hmv]
      · intro hmv
        simp [hmv, dictGet_dictInsert_self]
    · have hkne : kv.1 ≠ k := by
        intro hh
        exact hnd.1 (hh ▸ List.mem_map_of_mem Prod.fst hmem')
      have hstep : dictGet k (if isMaskedVal kv.2 then existing else dictInsert existing kv.1 kv.2) = dictGet k existing := by
        by_cases hm : isMaskedVal kv.2
        · simp [hm]
        · simp only [hm, Bool.false_eq_true, if_false]
          exact dictGet_dictInsert_other _ _ _ _ (Ne.symm hkne)
      have := ih hnd.2 (if isMaskedVal kv.2 then existing else dictInsert existing kv.1 kv.2) k v hmem'
      exact ⟨fun hmv => (this.1 hmv).trans hstep, this.2⟩

/-- C10: updating a gateway with credentials in which some values are
masked (as produced by the read endpoint) keeps the stored value of
every masked key and overwrites exactly the non-masked keys, so a
read-then-update round trip never destroys a stored secret; with no
masked value the stored credentials are replaced wholesale. -/
theorem C10_masked_credential_update (existing incoming : List (String × String))
    (hinc : (incoming.map Prod.fst).Nodup) :
    (incoming.any (fun kv => isMaskedVal kv.2) = true →
      ∀ k v, (k, v) ∈ incoming →
        (isMaskedVal v = true →
          dictGet k (update_credentials existing incoming) = dictGet k existing) ∧
        (isMaskedVal v = false →
          dictGet k (update_credentials existing incoming) = some v)) ∧
    (incoming.any (fun kv => isMaskedVal kv.2) = false →
      update_credentials existing incoming = incoming) ∧
    ((existing.map Prod.fst).Nodup →
      dictGet "key_secret" (update_credentials existing (mask_credentials existing)) =
        dictGet "key_secret" existing) := by
  refine ⟨?_, ?_, ?_⟩
  · intro hany k v hmem
    rw [update_credentials, if_pos hany]
    exact mergeFold_mem incoming hinc existing k v hmem
  · intro hany
    rw [update_credentials, if_neg (by simp [hany])]
  · intro hex
    by_cases hks : (dictGet "key_secret" existing).isSome
    · have hmc : mask_credentials existing = dictInsert existing "key_secret" "********" := by
        rw [mask_credentials, if_pos hks]
      have hmem : ("key_secret", "********") ∈ mask_credentials existing := by
        rw [hmc]; exact dictInsert_mem_self existing _ _
      have hnd : ((mask_credentials existing).map Prod.fst).Nodup := by
        rw [hmc]; exact dictInsert_keys_nodup existing _ _ hex
      have hany : (mask_credentials existing).any (fun kv => isMaskedVal kv.2) = true :=
        List.any_eq_true.mpr ⟨_, hmem, by decide⟩
      rw [update_credentials, if_pos hany]
      exact (mergeFold_mem (mask_credentials existing) hnd existing "key_secret" "********" hmem).1 (by decide)
    · have hmc : mask_credentials existing = existing := by
        rw [mask_credentials, if_neg hks]
      rw [hmc]
      by_cases hany : existing.any (fun kv => isMaskedVal kv.2) = true
      · rw [update_credentials, if_pos hany]
        refine mergeFold_untouched existing existing "key_secret" ?_
        exact dictGet_none_not_mem existing _ (Option.not_isSome_iff_eq_none.mp hks)
      · rw [update_credentials, if_neg (by simpa using hany)]

/-- Witness for C10: the secret of a concrete stored gateway survives
a read-then-update round trip. -/
theorem C10_masked_credential_update_witness :
    dictGet "key_secret"
        (update_credentials [("key_id", "old_id"), ("key_secret", "sekrit")]
          (mask_credentials [("key_id", "old_id"), ("key_secret", "sekrit")])) =
      dictGet "key_secret" [("key_id", "old_id"), ("key_secret", "sekrit")] :=
  (C10_masked_credential_update [("key_id", "old_id"), ("key_secret", "sekrit")]
    (mask_credentials [("key_id", "old_id"), ("key_secret", "sekrit")])
    (by decide)).2.2 (by decide)

/-- C3 counterexample: the webhook REPLACES `tracking_data` with the
scans of the payload instead of appending.  The pre-existing scan
entry of `oA` is gone after one delivery, and after delivering the
identical payload twice the log still holds one entry, not the
original one plus two. -/
theorem C3_counterexample :
    oA.tracking_data =
      [{ status := "Picked up", location := "JAIPUR", timestamp := "t1", status_code := "PUC" }] ∧
    ((rapidshyp_webhook [oA] (.json pA) "w1").1.headD oA).tracking_data =
      [{ status := "In transit hub", location := "DELHI", timestamp := "t5", status_code := "INT" }] ∧
    (((rapidshyp_webhook ((rapidshyp_webhook [oA] (.json pA) "w1").1)
        (.json pA) "w2").1).headD oA).tracking_data =
      [{ status := "In transit hub", location := "DELHI", timestamp := "t5", status_code := "INT" }] := by
  decide

/-- C3 amended: webhook processing replaces the matched order's
`tracking_data` wholesale with the converted scans of the payload (so
entries not present in the payload are dropped), delivering an
identical payload twice leaves `tracking_data` exactly as after one
delivery, and the non-idempotent growth is in `status_history`, which
gains one entry per delivery. -/
theorem C3_amended_tracking_replaced (o : Order) (sh : ShipmentDetail) (now now2 : String) :
    (processShipment o sh now).tracking_data = sh.track_scans.map convScan ∧
    (processShipment (processShipment o sh now) sh now2).tracking_data =
      (processShipment o sh now).tracking_data ∧
    (processShipment o sh now).status_history.length = o.status_history.length + 1 := by
  refine ⟨?_, ?_, ?_⟩ <;> simp [processShipment]

/-- C2 counterexample: the manual tracking refresh updates the status
through the status map WITHOUT appending a history entry, so after
refreshing a synced `shipped` order with a `DELIVERED` carrier status
the current status no longer equals the last history entry. -/
theorem C2_counterexample :
    statusSynced oD ∧
    (refresh_tracking oD { isError := false, scans := [], current_status := some "DELIVERED" }).status
      = "delivered" ∧
    (refresh_tracking oD { isError := false, scans := [], current_status := some "DELIVERED" }).status_history
      = oD.status_history ∧
    ¬ statusSynced
        (refresh_tracking oD { isError := false, scans := [], current_status := some "DELIVERED" }) := by
  refine ⟨by unfold statusSynced; decide, by decide, by decide,
          by unfold statusSynced; decide⟩

/-- C2 amended: `status_history` is append-only under every operation
(creation writes the initial singleton, webhook processing and the
ship action only ever append, the tracking refresh leaves it intact),
and every operation except the manual tracking refresh leaves the
current status equal to the last history entry; the refresh can move
the status while leaving the history untouched. -/
theorem C2_amended_history_append_only :
    (∀ (amount : ℚ) (codCharges : Option ℚ) (state name email : String)
        (items : List OrderItem) (now epoch : String),
      (create_cod_order amount codCharges state name email items now epoch).status_history.length = 1 ∧
      statusSynced (create_cod_order amount codCharges state name email items now epoch)) ∧
    (∀ (amount : ℚ) (state name email : String) (items : List OrderItem)
        (oid now comment : String),
      (create_online_order amount state name email items oid now comment).status_history.length = 1 ∧
      statusSynced (create_online_order amount state name email items oid now comment)) ∧
    (∀ (o : Order) (sh : ShipmentDetail) (now : String),
      o.status_history <+: (processShipment o sh now).status_history ∧
      statusSynced (processShipment o sh now)) ∧
    (∀ (o : Order) (enabled : Bool) (now epoch : String)
        (call1 retryCall : CallResult) (locs : List String),
      o.status_history <+: (ship_order o enabled now epoch call1 retryCall locs).1.status_history ∧
      ((ship_order o enabled now epoch call1 retryCall locs).1 = o ∨
        statusSynced (ship_order o enabled now epoch call1 retryCall locs).1)) ∧
    (∀ (o : Order) (r : TrackResult),
      (refresh_tracking o r).status_history = o.status_history) := by
  refine ⟨?_, ?_, ?_, ?_, ?_⟩
  · intro amount codCharges state name email items now epoch
    exact ⟨rfl, by simp [create_cod_order, statusSynced]⟩
  · intro amount state name email items oid now comment
    exact ⟨rfl, by simp [create_online_order, statusSynced]⟩
  · intro o sh now
    constructor
    · simp only [processShipment]
      exact ⟨_, rfl⟩
    · simp [processShipment, statusSynced]
  · intro o enabled now epoch call1 retryCall locs
    by_cases hs : o.shipping_id.isSome
    · constructor
      · simp [ship_order, hs]
      · left; simp [ship_order, hs]
    · have hsn : o.shipping_id.isSome = false := by simpa using hs
      cases enabled with
      | false =>
        constructor
        · simp only [ship_order, hsn, Bool.false_eq_true, if_false, Bool.not_false, if_true]
          exact ⟨_, rfl⟩
        · right
          simp [ship_order, hsn, statusSynced]
      | true =>
        cases hr : resolveResponse call1 retryCall locs with
        | exn m =>
          constructor
          · simp [ship_order, hsn, hr]
          · left; simp [ship_order, hsn, hr]
        | ok r =>
          by_cases hf : (r.status == "FAILED") = true
          · constructor
            · simp [ship_order, hsn, hr, hf]
            · left; simp [ship_order, hsn, hr, hf]
          · by_cases hsucc : (r.status == "SUCCESS" || r.orderCreated) = true
            · cases hsh : r.shipments with
              | nil =>
                constructor
                · simp [ship_order, hsn, hr, hf, hsucc, hsh]
                · left; simp [ship_order, hsn, hr, hf, hsucc, hsh]
              | cons sh rest =>
                constructor
                · simp only [ship_order, hsn, hr, hf, hsucc, hsh, Bool.false_eq_true,
                             if_false, if_true, Bool.not_true]
                  exact ⟨_, rfl⟩
                · right
                  simp [ship_order, hsn, hr, hf, hsucc, hsh, statusSynced]
            · constructor
              · simp [ship_order, hsn, hr, hf, hsucc]
              · left; simp [ship_order, hsn, hr, hf, hsucc]
  · intro o r
    rw [refresh_tracking]
    by_cases he : r.isError
    · simp [he]
    · simp only [he, Bool.false_eq_true, if_false]
      cases hcs : r.current_status with
      | none => by_cases hsc : r.scans.isEmpty <;> simp [hsc]
      | some cs => by_cases hsc : r.scans.isEmpty <;> simp [hsc]

theorem tax_sum_dist (amount : ℚ) (state : String) :
    |(calculate_tax_breakdown amount state).taxable_value +
      (calculate_tax_breakdown amount state).cgst_amount +
      (calculate_tax_breakdown amount state).sgst_amount +
      (calculate_tax_breakdown amount state).igst_amount - amount| ≤ 1/50 := by
  rw [calculate_tax_breakdown]
  by_cases h : isRajasthan state
  · simp only [h, if_true]
    have h1 := round2_dist (amount - round2 (amount / (103/100)))
    have h2 := round2_dist (round2 (amount - round2 (amount / (103/100))) / 2)
    rw [abs_le] at h1 h2 ⊢
    constructor <;> linarith [h1.1, h1.2, h2.1, h2.2]
  · simp only [h, if_false, Bool.false_eq_true]
    have h1 := round2_dist (amount - round2 (amount / (103/100)))
    rw [abs_le] at h1 ⊢
    constructor <;> linarith [h1.1, h1.2]

theorem calc_tax_1030_mah :
    calculate_tax_breakdown 1030 "Maharashtra" =
      { hsn_code := "7117", taxable_value := 1000, cgst_amount := 0
        sgst_amount := 0, igst_amount := 30, state := "Maharashtra" } := by
  have h9 : isRajasthan "Maharashtra" = false := by decide
  have ht : round2 ((1030 : ℚ) / (103/100)) = 1000 := by
    have h : (100 : ℚ) * (1030 / (103/100)) = ((100000 : ℤ) : ℚ) := by norm_num
    rw [round2_eval _ _ h]; norm_num
  have hg : round2 ((1030 : ℚ) - 1000) = 30 := by
    have h : (100 : ℚ) * (1030 - 1000) = ((3000 : ℤ) : ℚ) := by norm_num
    rw [round2_eval _ _ h]; norm_num
  simp [calculate_tax_breakdown, h9, ht, hg]

/-- C5 counterexample: a COD order with COD charges violates the sum
invariant — tax is computed on the base amount while the stored total
additionally carries the charges: amount 1030, charges 50, state
Maharashtra stores taxable 1000, IGST 30, total 1080, off by 50. -/
theorem C5_counterexample :
    ¬ (|(create_cod_order 1030 (some 50) "Maharashtra" "N" "n@e" [] "t" "ep").taxable_value +
        (create_cod_order 1030 (some 50) "Maharashtra" "N" "n@e" [] "t" "ep").cgst_amount +
        (create_cod_order 1030 (some 50) "Maharashtra" "N" "n@e" [] "t" "ep").sgst_amount +
        (create_cod_order 1030 (some 50) "Maharashtra" "N" "n@e" [] "t" "ep").igst_amount -
        (create_cod_order 1030 (some 50) "Maharashtra" "N" "n@e" [] "t" "ep").total_amount| ≤ 1/50) := by
  simp only [create_cod_order, calc_tax_1030_mah]
  norm_num

/-- C5 amended: verified-online-payment orders always satisfy
`taxable + cgst + sgst + igst = total` within 0.02; for COD orders the
same bound holds against the total MINUS the COD charges, i.e. the
stored total exceeds the tax reconciliation by exactly the COD
charges. -/
theorem C5_amended_tax_sum (amount : ℚ) (codCharges : Option ℚ)
    (state name email : String) (items : List OrderItem)
    (oid now comment epoch : String) :
    (|(create_online_order amount state name email items oid now comment).taxable_value +
       (create_online_order amount state name email items oid now comment).cgst_amount +
       (create_online_order amount state name email items oid now comment).sgst_amount +
       (create_online_order amount state name email items oid now comment).igst_amount -
       (create_online_order amount state name email items oid now comment).total_amount| ≤ 1/50) ∧
    (|(create_cod_order amount codCharges state name email items now epoch).taxable_value +
       (create_cod_order amount codCharges state name email items now epoch).cgst_amount +
       (create_cod_order amount codCharges state name email items now epoch).sgst_amount +
       (create_cod_order amount codCharges state name email items now epoch).igst_amount -
       ((create_cod_order amount codCharges state name email items now epoch).total_amount -
         codCharges.getD 0)| ≤ 1/50) := by
  constructor
  · simpa [create_online_order] using tax_sum_dist amount state
  · have h := tax_sum_dist amount state
    simp only [create_cod_order]
    have he : amount + codCharges.getD 0 - codCharges.getD 0 = amount := by ring
    simpa [he] using h

/-- C6: the ship action on a never-shipped order does create exactly
one shipment, set the shipment fields, and refuse a second shipment
once `shipping_id` is set — but the status it writes is the
capitalised string "Shipped", which is NOT a member of the fixed
status vocabulary of the specification (every other transition writes
lower-case statuses; the tracking stepper maps "Shipped" to the
unknown-status step).  This theorem evaluates the action at the
failing input. -/
theorem C6_ship_status_capitalised :
    (ship_order oB true "t6" "e6" (.ok shipOkResp) (.exn "x") []).1.status = "Shipped" ∧
    "Shipped" ∉ specStatusVocabulary ∧
    (ship_order oB true "t6" "e6" (.ok shipOkResp) (.exn "x") []).1.shipping_id = some "SH9" ∧
    (ship_order oB true "t6" "e6" (.ok shipOkResp) (.exn "x") []).1.awb_number = some "AWB9" ∧
    (ship_order oB true "t6" "e6" (.ok shipOkResp) (.exn "x") []).2 =
      .ok { shipmentId := "SH9", awb := "AWB9", courierName := "Delhivery"
            labelURL := "lab", manifestURL := "man" } ∧
    (ship_order oA true "t6" "e6" (.ok shipOkResp) (.exn "x") []).2 =
      .error "Order already shipped" ∧
    (ship_order oA true "t6" "e6" (.ok shipOkResp) (.exn "x") []).1 = oA := by
  decide

theorem b2csGet_upsert_self (pos : String) (o : Order) :
    ∀ (l : List (String × B2CSEntry)),
      b2csGet pos (b2csUpsert pos o l) =
        some (applyB2CS ((b2csGet pos l).getD (initB2CS pos o)) o) := by
  intro l
  induction l with
  | nil => simp [b2csGet, b2csUpsert]
  | cons ke rest ih =>
    obtain ⟨k, e⟩ := ke
    by_cases hk : k = pos
    · simp [b2csGet, b2csUpsert, hk]
    · simp [b2csGet, b2csUpsert, hk, ih]

theorem b2csGet_upsert_other (pos : String) (o : Order) (pos' : String)
    (h : pos' ≠ pos) :
    ∀ (l : List (String × B2CSEntry)),
      b2csGet pos' (b2csUpsert pos o l) = b2csGet pos' l := by
  have hne : ¬ pos = pos' := fun hh => h hh.symm
  intro l
  induction l with
  | nil => simp [b2csGet, b2csUpsert, hne]
  | cons ke rest ih =>
    obtain ⟨k, e⟩ := ke
    by_cases hk : k = pos
    · subst hk
      simp [b2csGet, b2csUpsert, hne]
    · by_cases hk2 : k = pos'
      · subst hk2
        simp [b2csGet, b2csUpsert, hk]
      · simp [b2csGet, b2csUpsert, hk, hk2, ih]

theorem entryFold_some (key : String) :
    ∀ (ms : List Order) (e : B2CSEntry),
      entryFold key (some e) ms = some (ms.foldl applyB2CS e) := by
  intro ms
  induction ms with
  | nil => intro e; rfl
  | cons m rest ih =>
    intro e
    rw [entryFold, List.foldl_cons]
    simpa using ih (applyB2CS e m)

theorem applyB2CS_txval (e : B2CSEntry) (o : Order) :
    (applyB2CS e o).txval = e.txval + o.taxable_value := by
  rw [applyB2CS]; split_ifs <;> rfl

theorem applyB2CS_iamt (e : B2CSEntry) (o : Order) :
    (applyB2CS e o).iamt = e.iamt + o.igst_amount := by
  rw [applyB2CS]; split_ifs <;> rfl

theorem applyB2CS_const (e : B2CSEntry) (o : Order) :
    (applyB2CS e o).rt = e.rt ∧ (applyB2CS e o).typ = e.typ ∧
    (applyB2CS e o).pos = e.pos ∧ (applyB2CS e o).csamt = e.csamt := by
  rw [applyB2CS]; split_ifs <;> exact ⟨rfl, rfl, rfl, rfl⟩

theorem applyB2CS_sply (e : B2CSEntry) (o : Order) :
    (applyB2CS e o).sply_ty =
      if 0 < o.cgst_amount then "INTRA" else e.sply_ty := by
  rw [applyB2CS]; split_ifs <;> rfl

theorem foldl_applyB2CS_txval :
    ∀ (ms : List Order) (e : B2CSEntry),
      (ms.foldl applyB2CS e).txval = e.txval + (ms.map Order.taxable_value).sum := by
  intro ms
  induction ms with
  | nil => intro e; simp
  | cons m rest ih =>
    intro e
    rw [List.foldl_cons, ih, applyB2CS_txval]
    simp [add_assoc]

theorem foldl_applyB2CS_iamt :
    ∀ (ms : List Order) (e : B2CSEntry),
      (ms.foldl applyB2CS e).iamt = e.iamt + (ms.map Order.igst_amount).sum := by
  intro ms
  induction ms with
  | nil => intro e; simp
  | cons m rest ih =>
    intro e
    rw [List.foldl_cons, ih, applyB2CS_iamt]
    simp [add_assoc]

theorem foldl_applyB2CS_const :
    ∀ (ms : List Order) (e : B2CSEntry),
      (ms.foldl applyB2CS e).rt = e.rt ∧ (ms.foldl applyB2CS e).typ = e.typ ∧
      (ms.foldl applyB2CS e).pos = e.pos ∧ (ms.foldl applyB2CS e).csamt = e.csamt := by
  intro ms
  induction ms with
  | nil => intro e; exact ⟨rfl, rfl, rfl, rfl⟩
  | cons m rest ih =>
    intro e
    rw [List.foldl_cons]
    have h1 := applyB2CS_const e m
    have h2 := ih (applyB2CS e m)
    exact ⟨h2.1.trans h1.1, h2.2.1.trans h1.2.1, h2.2.2.1.trans h1.2.2.1,
           h2.2.2.2.trans h1.2.2.2⟩

theorem foldl_applyB2CS_sply :
    ∀ (ms : List Order) (e : B2CSEntry),
      (ms.foldl applyB2CS e).sply_ty =
        if ms.any (fun o => decide (0 < o.cgst_amount)) then "INTRA" else e.sply_ty := by
  intro ms
  induction ms with
  | nil => intro e; simp
  | cons m rest ih =>
    intro e
    rw [List.foldl_cons, ih]
    by_cases hm : 0 < m.cgst_amount
    · by_cases hr : rest.any (fun o => decide (0 < o.cgst_amount)) <;>
        simp [hm, hr, applyB2CS_sply]
    · by_cases hr : rest.any (fun o => decide (0 < o.cgst_amount)) <;>
        simp [hm, hr, applyB2CS_sply]

theorem gstr1_fold_b2cs (mapping : List (String × String)) :
    ∀ (orders : List Order) (acc : List (String × B2CSEntry) × HsnTotals) (key : String),
      b2csGet key (orders.foldl (gstr1Step mapping) acc).1 =
        entryFold key (b2csGet key acc.1) (orders.filter (memberFilter mapping key)) := by
  intro orders
  induction orders with
  | nil => intro acc key; rfl
  | cons o rest ih =>
    intro acc key
    rw [List.foldl_cons]
    by_cases hskip : o.taxable_value ≤ 0
    · have hstep : gstr1Step mapping acc o = acc := by rw [gstr1Step, if_pos hskip]
      have hfil : memberFilter mapping key o = false := by
        simp [memberFilter, hskip]
      rw [hstep, List.filter_cons_of_neg (by simp [hfil]), ih]
    · have hstep : gstr1Step mapping acc o =
          (b2csUpsert (posResolve mapping o.state) o acc.1, applyHsn acc.2 o) := by
        rw [gstr1Step, if_neg hskip]
      by_cases hkey : posResolve mapping o.state = key
      · have hfil : memberFilter mapping key o = true := by
          simp [memberFilter, hskip, hkey]
        rw [hstep, List.filter_cons_of_pos (by simp [hfil]), ih]
        subst hkey
        rw [entryFold]
        rw [b2csGet_upsert_self]
      · have hfil : memberFilter mapping key o = false := by
          simp [memberFilter, hskip, hkey]
        rw [hstep, List.filter_cons_of_neg (by simp [hfil]), ih]
        rw [b2csGet_upsert_other _ _ _ (fun hh => hkey hh.symm)]

theorem applyHsn_txval (h : HsnTotals) (o : Order) :
    (applyHsn h o).txval = h.txval + o.taxable_value := rfl

theorem gstr1_fold_hsn (mapping : List (String × String)) :
    ∀ (orders : List Order) (acc : List (String × B2CSEntry) × HsnTotals),
      (orders.foldl (gstr1Step mapping) acc).2 =
        (orders.filter (fun o => !decide (o.taxable_value ≤ 0))).foldl applyHsn acc.2 := by
  intro orders
  induction orders with
  | nil => intro acc; rfl
  | cons o rest ih =>
    intro acc
    rw [List.foldl_cons]
    by_cases hskip : o.taxable_value ≤ 0
    · have hstep : gstr1Step mapping acc o = acc := by rw [gstr1Step, if_pos hskip]
      rw [hstep, List.filter_cons_of_neg (by simp [hskip]), ih]
    · have hstep : gstr1Step mapping acc o =
          (b2csUpsert (posResolve mapping o.state) o acc.1, applyHsn acc.2 o) := by
        rw [gstr1Step, if_neg hskip]
      rw [hstep, List.filter_cons_of_pos (by simp [hskip]), ih, List.foldl_cons]

theorem foldl_applyHsn_txval :
    ∀ (ms : List Order) (h : HsnTotals),
      (ms.foldl applyHsn h).txval = h.txval + (ms.map Order.taxable_value).sum := by
  intro ms
  induction ms with
  | nil => intro h; simp
  | cons m rest ih =>
    intro h
    rw [List.foldl_cons, ih, applyHsn_txval]
    simp [add_assoc]

/-- C4 counterexample: under one key the classification is NOT decided
by the last-seen order.  With an intra-taxed order followed by an
inter-taxed order under the same key, the code classifies the group
INTRA (the first member seeds it and a CGST member pins it; nothing
ever resets it), while the last-seen rule of the claim demands
INTER. -/
theorem C4_counterexample :
    (b2csGet "08" (gstr1Acc m0 [oR, oM2]).1).map B2CSEntry.sply_ty = some "INTRA" ∧
    specClassifyLastSeen [oR, oM2] = "INTER" := by
  constructor
  · have hR : ¬ (oR.taxable_value ≤ 0) := by norm_num [oR]
    have hM2 : ¬ (oM2.taxable_value ≤ 0) := by norm_num [oM2]
    have hgel : gstr1Eligible [oR, oM2] = [oR, oM2] := rfl
    have hfR : memberFilter m0 "08" oR = true := by
      rw [memberFilter]
      simp [decide_eq_false hR, show posResolve m0 oR.state = "08" from rfl]
    have hfM2 : memberFilter m0 "08" oM2 = true := by
      rw [memberFilter]
      simp [decide_eq_false hM2, show posResolve m0 oM2.state = "08" from rfl]
    have hfil : [oR, oM2].filter (memberFilter m0 "08") = [oR, oM2] := by
      rw [List.filter_cons_of_pos (by simp [hfR]),
          List.filter_cons_of_pos (by simp [hfM2]), List.filter_nil]
    rw [gstr1Acc, hgel, gstr1_fold_b2cs m0 [oR, oM2] ([], ⟨0, 0, 0, 0, 0⟩) "08", hfil]
    rw [show b2csGet "08" ([] : List (String × B2CSEntry)) = none from rfl]
    rw [entryFold, entryFold_some]
    have hsply := foldl_applyB2CS_sply [oM2] (applyB2CS ((none : Option B2CSEntry).getD (initB2CS "08" oR)) oR)
    have hany : [oM2].any (fun o => decide (0 < o.cgst_amount)) = false := by
      simp [decide_eq_false (show ¬ ((0:ℚ) < oM2.cgst_amount) by norm_num [oM2])]
    simp only [Option.map_some']
    rw [hsply, hany, if_neg (by simp)]
    rw [applyB2CS_sply, if_pos (show (0:ℚ) < oR.cgst_amount by norm_num [oR])]
  · rw [specClassifyLastSeen]
    simp [if_pos (show (0:ℚ) < oM2.igst_amount by norm_num [oM2])]

/-- C4 amended: the aggregation takes the non-cancelled orders with
positive taxable value, groups them by place-of-supply key (at the
fixed 3 percent rate), sums taxable value and IGST per group — but the
classification of a group is NOT the last-seen order's pattern: it is
INTER exactly when the FIRST member seen under the key has positive
IGST and no member at all has positive CGST (a CGST member pins the
group to INTRA forever).  The concrete scenario of one intra-state and
one inter-state order still yields two B2CS groups and one HSN summary
line with total taxable value 2000. -/
theorem C4_amended_gstr1_aggregation (mapping : List (String × String))
    (orders : List Order) (key : String) :
    (b2csGet key (gstr1Acc mapping orders).1 =
      match (gstr1Eligible orders).filter (memberFilter mapping key) with
      | [] => none
      | m :: ms =>
        some { sply_ty :=
                 if (m :: ms).any (fun o => decide (0 < o.cgst_amount)) then "INTRA"
                 else if 0 < m.igst_amount then "INTER" else "INTRA"
               rt := 3, typ := "OE", pos := key
               txval := ((m :: ms).map Order.taxable_value).sum
               iamt := ((m :: ms).map Order.igst_amount).sum
               csamt := 0 }) ∧
    ((gstr1Acc mapping orders).2.txval =
      (((gstr1Eligible orders).filter (fun o => !decide (o.taxable_value ≤ 0))).map
        Order.taxable_value).sum) ∧
    ((get_gstr1_aggregate m0 [oR, oM]).1.map B2CSOut.sply_ty = ["INTRA", "INTER"]) ∧
    ((get_gstr1_aggregate m0 [oR, oM]).1.length = 2) ∧
    ((get_gstr1_aggregate m0 [oR, oM]).2.map HsnOut.txval = [2000]) := by
  refine ⟨?_, ?_, ?_, ?_, ?_⟩
  · rw [gstr1Acc, gstr1_fold_b2cs mapping (gstr1Eligible orders) ([], ⟨0, 0, 0, 0, 0⟩) key]
    rw [show b2csGet key ([] : List (String × B2CSEntry)) = none from rfl]
    cases hms : (gstr1Eligible orders).filter (memberFilter mapping key) with
    | nil => rfl
    | cons m ms =>
      rw [entryFold, entryFold_some]
      refine congrArg some ?_
      refine B2CSEntry.ext ?_ ?_ ?_ ?_ ?_ ?_ ?_
      · rw [foldl_applyB2CS_sply, applyB2CS_sply]
        by_cases hc : 0 < m.cgst_amount <;>
          by_cases ha : ms.any (fun o => decide (0 < o.cgst_amount)) = true <;>
            simp [initB2CS, hc, ha, List.any_cons]
      · rw [(foldl_applyB2CS_const ms _).1, (applyB2CS_const _ _).1]
        rfl
      · rw [(foldl_applyB2CS_const ms _).2.1, (applyB2CS_const _ _).2.1]
        rfl
      · rw [(foldl_applyB2CS_const ms _).2.2.1, (applyB2CS_const _ _).2.2.1]
        rfl
      · rw [foldl_applyB2CS_txval, applyB2CS_txval]
        simp [initB2CS]
      · rw [foldl_applyB2CS_iamt, applyB2CS_iamt]
        simp [initB2CS]
      · rw [(foldl_applyB2CS_const ms _).2.2.2, (applyB2CS_const _ _).2.2.2]
        rfl
  · rw [gstr1Acc, gstr1_fold_hsn, foldl_applyHsn_txval]
    simp
  · have hstep1 : gstr1Step m0 ([], (⟨0, 0, 0, 0, 0⟩ : HsnTotals)) oR =
        ([("08", applyB2CS (initB2CS "08" oR) oR)], applyHsn ⟨0, 0, 0, 0, 0⟩ oR) := by
      rw [gstr1Step, if_neg (show ¬ (oR.taxable_value ≤ 0) by norm_num [oR])]
      rfl
    have hstep2 : gstr1Step m0
        ([("08", applyB2CS (initB2CS "08" oR) oR)], applyHsn ⟨0, 0, 0, 0, 0⟩ oR) oM =
        ([("08", applyB2CS (initB2CS "08" oR) oR), ("27", applyB2CS (initB2CS "27" oM) oM)],
         applyHsn (applyHsn ⟨0, 0, 0, 0, 0⟩ oR) oM) := by
      rw [gstr1Step, if_neg (show ¬ (oM.taxable_value ≤ 0) by norm_num [oM])]
      rfl
    have hAcc : gstr1Acc m0 [oR, oM] =
        ([("08", applyB2CS (initB2CS "08" oR) oR), ("27", applyB2CS (initB2CS "27" oM) oM)],
         applyHsn (applyHsn ⟨0, 0, 0, 0, 0⟩ oR) oM) := by
      rw [gstr1Acc, show gstr1Eligible [oR, oM] = [oR, oM] from rfl,
          List.foldl_cons, List.foldl_cons, List.foldl_nil, hstep1, hstep2]
    have hs1 : (applyB2CS (initB2CS "08" oR) oR).sply_ty = "INTRA" := by
      rw [applyB2CS_sply, if_pos (show (0:ℚ) < oR.cgst_amount by norm_num [oR])]
    have hs2 : (applyB2CS (initB2CS "27" oM) oM).sply_ty = "INTER" := by
      rw [applyB2CS_sply, if_neg (show ¬ ((0:ℚ) < oM.cgst_amount) by norm_num [oM])]
      simp [initB2CS, show (0:ℚ) < oM.igst_amount by norm_num [oM]]
    simp only [get_gstr1_aggregate, hAcc]
    simp [fmtB2CS, hs1, hs2]
  · have hstep1 : gstr1Step m0 ([], (⟨0, 0, 0, 0, 0⟩ : HsnTotals)) oR =
        ([("08", applyB2CS (initB2CS "08" oR) oR)], applyHsn ⟨0, 0, 0, 0, 0⟩ oR) := by
      rw [gstr1Step, if_neg (show ¬ (oR.taxable_value ≤ 0) by norm_num [oR])]
      rfl
    have hstep2 : gstr1Step m0
        ([("08", applyB2CS (initB2CS "08" oR) oR)], applyHsn ⟨0, 0, 0, 0, 0⟩ oR) oM =
        ([("08", applyB2CS (initB2CS "08" oR) oR), ("27", applyB2CS (initB2CS "27" oM) oM)],
         applyHsn (applyHsn ⟨0, 0, 0, 0, 0⟩ oR) oM) := by
      rw [gstr1Step, if_neg (show ¬ (oM.taxable_value ≤ 0) by norm_num [oM])]
      rfl
    have hAcc : gstr1Acc m0 [oR, oM] =
        ([("08", applyB2CS (initB2CS "08" oR) oR), ("27", applyB2CS (initB2CS "27" oM) oM)],
         applyHsn (applyHsn ⟨0, 0, 0, 0, 0⟩ oR) oM) := by
      rw [gstr1Acc, show gstr1Eligible [oR, oM] = [oR, oM] from rfl,
          List.foldl_cons, List.foldl_cons, List.foldl_nil, hstep1, hstep2]
    simp only [get_gstr1_aggregate, hAcc]
    simp
  · have hstep1 : gstr1Step m0 ([], (⟨0, 0, 0, 0, 0⟩ : HsnTotals)) oR =
        ([("08", applyB2CS (initB2CS "08" oR) oR)], applyHsn ⟨0, 0, 0, 0, 0⟩ oR) := by
      rw [gstr1Step, if_neg (show ¬ (oR.taxable_value ≤ 0) by norm_num [oR])]
      rfl
    have hstep2 : gstr1Step m0
        ([("08", applyB2CS (initB2CS "08" oR) oR)], applyHsn ⟨0, 0, 0, 0, 0⟩ oR) oM =
        ([("08", applyB2CS (initB2CS "08" oR) oR), ("27", applyB2CS (initB2CS "27" oM) oM)],
         applyHsn (applyHsn ⟨0, 0, 0, 0, 0⟩ oR) oM) := by
      rw [gstr1Step, if_neg (show ¬ (oM.taxable_value ≤ 0) by norm_num [oM])]
      rfl
    have hAcc : gstr1Acc m0 [oR, oM] =
        ([("08", applyB2CS (initB2CS "08" oR) oR), ("27", applyB2CS (initB2CS "27" oM) oM)],
         applyHsn (applyHsn ⟨0, 0, 0, 0, 0⟩ oR) oM) := by
      rw [gstr1Acc, show gstr1Eligible [oR, oM] = [oR, oM] from rfl,
          List.foldl_cons, List.foldl_cons, List.foldl_nil, hstep1, hstep2]
    have htx : (applyHsn (applyHsn ⟨0, 0, 0, 0, 0⟩ oR) oM).txval = 2000 := by
      rw [applyHsn_txval, applyHsn_txval]
      norm_num [oR, oM]
    have hr2 : round2 (2000 : ℚ) = 2000 := by
      rw [round2_eval 2000 200000 (by norm_num)]
      norm_num
    simp only [get_gstr1_aggregate, hAcc]
    rw [if_pos (show (0:ℚ) < (applyHsn (applyHsn ⟨0, 0, 0, 0, 0⟩ oR) oM).txval by
          rw [htx]; norm_num)]
    simp [fmtHsn, htx, hr2]

end Varaha
